import Mathlib

/-!
Verification of the goodscript memory-management layer (the GC allocator
headers under `src/runtime/cpp/gc` and `src/compiler/runtime/cpp/gc`).

Shallow embedding conventions:
* machine addresses and sizes are `Nat` (the target is 64-bit, `sizeof(void*) = 8`);
* the MPS library (`mps.h`) is external to the repository; its observable
  effects (`mps_reserve`/`mps_alloc` returning an address, `mps_arena_committed`)
  appear as parameters or abstract state fields, while all arithmetic and
  control flow of the code of the repository itself is embedded literally;
* C++ bit-mask alignment `(x + a - 1) & ~(a - 1)` (always used with a power
  of two `a`) is written `(x + a - 1) / a * a`, which agrees with the mask
  form for every power-of-two `a`.
-/

namespace gs
namespace gc

/-- `sizeof(void*)` on the 64-bit target. -/
def ptrSize : Nat := 8

/-- Round `n` up to a multiple of `a` (the claim-side notion of alignment;
for power-of-two `a` this is the C++ mask `(n + a - 1) & ~(a - 1)`). -/
def alignUp (n a : Nat) : Nat := (n + a - 1) / a * a

theorem le_alignUp (n : Nat) {a : Nat} (ha : 0 < a) : n ≤ alignUp n a := by
  unfold alignUp
  have h := Nat.lt_div_mul_add (a := n + a - 1) ha
  omega

theorem alignUp_lt_add (n : Nat) {a : Nat} (ha : 0 < a) : alignUp n a < n + a := by
  unfold alignUp
  have h := Nat.div_mul_le_self (n + a - 1) a
  omega

theorem alignUp_mod (n a : Nat) : alignUp n a % a = 0 := by
  unfold alignUp
  exact Nat.mul_mod_left _ _

/-- `struct ObjectHeader { size_t size; void* type_tag; }`
(`src/compiler/runtime/cpp/gc/allocator-amc.hpp` lines 42-55).
`type_tag` is a `void*` stored as a machine word. -/
structure ObjectHeader where
  size : Nat
  type_tag : Nat
  deriving DecidableEq, Repr

/-- `ObjectHeader::alignment()`: headers are pointer-aligned. -/
def ObjectHeader.alignment : Nat := ptrSize

/-- `sizeof(ObjectHeader)`: one `size_t` plus one `void*` on the 64-bit target. -/
def sizeofObjectHeader : Nat := 2 * ptrSize

/-- `ObjectHeader::header_size()`:
`(sizeof(ObjectHeader) + alignment() - 1) & ~(alignment() - 1)`. -/
def ObjectHeader.header_size : Nat :=
  (sizeofObjectHeader + ObjectHeader.alignment - 1) / ObjectHeader.alignment *
    ObjectHeader.alignment

/-- The AMC heap as a map from addresses to the header stored there, for the
format callbacks that read and write headers in memory. -/
def Heap : Type := Nat → ObjectHeader

namespace format

/-- `format::isfwd` (allocator-amc.hpp lines 113-124): if the low bit of
`type_tag` is set, return `type_tag & ~1` (low bit cleared, written here as
`2 * (t / 2)`), else `nullptr` (`none`). -/
def isfwd (h : ObjectHeader) : Option Nat :=
  if h.type_tag % 2 = 1 then some (2 * (h.type_tag / 2)) else none

/-- `format::isfwd` applied to the header stored at `addr`. -/
def isfwdAt (m : Heap) (addr : Nat) : Option Nat :=
  isfwd (m addr)

/-- `format::skip` (allocator-amc.hpp lines 97-100): return
`addr + header->size` reading the header at `addr`. -/
def skip (m : Heap) (addr : Nat) : Nat :=
  addr + (m addr).size

/-- `format::pad` (allocator-amc.hpp lines 129-133): write a header at `addr`
with `size := size` and `type_tag := nullptr`. -/
def pad (m : Heap) (addr size : Nat) : Heap :=
  fun a => if a = addr then { size := size, type_tag := 0 } else m a

end format

/-- The caller-visible effect of one AMC allocation: the base address handed
back by `mps_reserve`, the header written there, and the object pointer that
is returned. -/
structure AMCAlloc where
  base : Nat
  header : ObjectHeader
  objAddr : Nat
  deriving DecidableEq, Repr

/-- `AllocatorAMC::alloc<T>(args...)` and `AllocatorAMC::alloc<T>()`
(allocator-amc.hpp lines 233-277 and 282-315; both overloads perform the same
size computation and header write): `total_size = header_size() + sizeof(T)`,
rounded with `(total_size + sizeof(void*) - 1) & ~(sizeof(void*) - 1)`; the
header at `addr` gets `size = total_size`, `type_tag = nullptr`, and the
object is constructed at `addr + header_size()`. `addr` is the address
returned by `mps_reserve`. -/
def AllocatorAMC.allocAt (addr objectSize : Nat) : AMCAlloc :=
  let total_size := ObjectHeader.header_size + objectSize
  let total_size := (total_size + ptrSize - 1) / ptrSize * ptrSize
  { base := addr
    header := { size := total_size, type_tag := 0 }
    objAddr := addr + ObjectHeader.header_size }

/-- `AllocatorAMC::alloc_array<T>(count)` (allocator-amc.hpp lines 320-357):
same as `allocAt` with payload `sizeof(T) * count`. -/
def AllocatorAMC.alloc_arrayAt (addr eltSize count : Nat) : AMCAlloc :=
  let object_size := eltSize * count
  let total_size := ObjectHeader.header_size + object_size
  let total_size := (total_size + ptrSize - 1) / ptrSize * ptrSize
  { base := addr
    header := { size := total_size, type_tag := 0 }
    objAddr := addr + ObjectHeader.header_size }

/-- `struct AllocatorConfig { size_t arena_size; size_t commit_limit; }`
(`src/runtime/cpp/gc/allocator.hpp` lines 23-50). -/
structure AllocatorConfig where
  arena_size : Nat
  commit_limit : Nat
  deriving DecidableEq, Repr

/-- `AllocatorConfig::defaults()`: 64MB initial, 512MB max. -/
def AllocatorConfig.defaults : AllocatorConfig :=
  { arena_size := 64 * 1024 * 1024, commit_limit := 512 * 1024 * 1024 }

/-- `AllocatorConfig::large()`: 256MB initial, 1GB max. -/
def AllocatorConfig.large : AllocatorConfig :=
  { arena_size := 256 * 1024 * 1024, commit_limit := 1024 * 1024 * 1024 }

/-- `AllocatorConfig::small()`: 16MB initial, 128MB max. -/
def AllocatorConfig.small : AllocatorConfig :=
  { arena_size := 16 * 1024 * 1024, commit_limit := 128 * 1024 * 1024 }

/-- Observable state of an MPS arena (the MPS library is external to the
repository): bytes reported by `mps_arena_committed` / `mps_arena_reserved`. -/
structure MpsArena where
  committed : Nat
  reserved : Nat
  deriving DecidableEq, Repr

/-- The static state of `gs::gc::Allocator` (allocator.hpp lines 77-82,
294-300): the `initialized` flag, the stored `config`, and the MPS arena
handle abstracted by its observables. The arena/pool/thread-root handles are
meaningful only while `initialized`. -/
structure AllocatorState where
  initialized : Bool
  config : AllocatorConfig
  arena : MpsArena
  deriving DecidableEq, Repr

/-- The state at program start: `initialized = false`,
`config = AllocatorConfig::defaults()` (allocator.hpp lines 299-300). -/
def AllocatorState.start : AllocatorState :=
  { initialized := false, config := AllocatorConfig.defaults
    arena := { committed := 0, reserved := 0 } }

/-- `Allocator::init(cfg)` (allocator.hpp lines 91-144): if already
initialized, return immediately (no-op); otherwise store the config, create
the MPS arena and pool from it (`create` abstracts the external
`mps_arena_create_k`/`mps_pool_create_k`/`mps_root_create_thread` sequence),
and set `initialized`. -/
def Allocator.init (create : AllocatorConfig → MpsArena) (st : AllocatorState)
    (cfg : AllocatorConfig) : AllocatorState :=
  if st.initialized then st
  else { initialized := true, config := cfg, arena := create cfg }

/-- `Allocator::committed_memory()` (allocator.hpp lines 257-260): 0 before
init, else `mps_arena_committed(arena)`. -/
def Allocator.committed_memory (st : AllocatorState) : Nat :=
  if st.initialized then st.arena.committed else 0

/-- `Allocator::get_config()` (allocator.hpp lines 270-272). -/
def Allocator.get_config (st : AllocatorState) : AllocatorConfig :=
  st.config

/-- `Allocator::shutdown()` (allocator.hpp lines 150-158): no-op when not
initialized; otherwise destroy the MPS resources and clear `initialized`. -/
def Allocator.shutdown (st : AllocatorState) : AllocatorState :=
  if st.initialized then { st with initialized := false } else st

/-- The resources destroyed during shutdown, in program order. `thread` is
`mps_thread_dereg` and `format` is `mps_fmt_destroy`. -/
inductive TeardownEvent where
  | root
  | thread
  | pool
  | format
  | arena
  deriving DecidableEq, Repr

/-- The sequence of destroy calls `Allocator::shutdown()` makes
(allocator.hpp lines 150-158): `mps_root_destroy`, `mps_thread_dereg`,
`mps_pool_destroy`, `mps_arena_destroy`, or nothing when not initialized. -/
def Allocator.shutdownTrace (st : AllocatorState) : List TeardownEvent :=
  if st.initialized then
    [TeardownEvent.root, TeardownEvent.thread, TeardownEvent.pool,
     TeardownEvent.arena]
  else []

/-- The static state of `gs::gc::AllocatorAMC`
(`src/compiler/runtime/cpp/gc/allocator-amc.hpp` lines 141-146): only the
`initialized` flag is observable in the embedding (its `init()` takes no
config). -/
structure AMCState where
  initialized : Bool
  deriving DecidableEq, Repr

/-- `AllocatorAMC::shutdown()` (allocator-amc.hpp lines 217-226): no-op when
not initialized; otherwise destroy the MPS resources and clear
`initialized`. -/
def AllocatorAMC.shutdown (st : AMCState) : AMCState :=
  if st.initialized then { st with initialized := false } else st

/-- The sequence of destroy calls `AllocatorAMC::shutdown()` makes
(allocator-amc.hpp lines 217-226): `mps_pool_destroy`, `mps_fmt_destroy`,
`mps_root_destroy`, `mps_thread_dereg`, `mps_arena_destroy`, or nothing when
not initialized. -/
def AllocatorAMC.shutdownTrace (st : AMCState) : List TeardownEvent :=
  if st.initialized then
    [TeardownEvent.pool, TeardownEvent.format, TeardownEvent.root,
     TeardownEvent.thread, TeardownEvent.arena]
  else []

/-- Event `a` occurs before event `b` in trace `l` (both present). -/
def before (a b : TeardownEvent) (l : List TeardownEvent) : Prop :=
  a ∈ l ∧ b ∈ l ∧ l.indexOf a < l.indexOf b

instance (a b : TeardownEvent) (l : List TeardownEvent) :
    Decidable (before a b l) := by
  unfold before
  infer_instance

/-- The caller-visible effect of one conservative-pool allocation: the number
of bytes passed to `mps_alloc`, whether the reserved bytes were `memset` to
zero before construction, and the returned object address (`addr` is the
address `mps_alloc` produced). -/
structure ConsAlloc where
  reservedSize : Nat
  zeroFilled : Bool
  objAddr : Nat
  deriving DecidableEq, Repr

/-- Size and fill behavior of `Allocator::alloc<T>(args...)` (allocator.hpp
lines 163-188): `size = max(sizeof(T), sizeof(void*))` then
`(size + 7) & ~7`; `memset` to zero only when `T` is not trivially
constructible from the arguments (`trivialCtor` is
`std::is_trivially_constructible<T, Args...>::value`); construct in place at
`addr` and return it as `T*`. -/
def Allocator.allocCore (addr sizeofT : Nat) (trivialCtor : Bool) : ConsAlloc :=
  let size := max sizeofT ptrSize
  let size := (size + 7) / 8 * 8
  { reservedSize := size, zeroFilled := !trivialCtor, objAddr := addr }

/-- Size and fill behavior of `Allocator::alloc<T>()` (allocator.hpp lines
193-213): `size = (sizeof(T) + sizeof(void*) - 1) & ~(sizeof(void*) - 1)`,
always zero-filled. -/
def Allocator.allocNoArgCore (addr sizeofT : Nat) : ConsAlloc :=
  let size := (sizeofT + ptrSize - 1) / ptrSize * ptrSize
  { reservedSize := size, zeroFilled := true, objAddr := addr }

/-- Size and fill behavior of `Allocator::alloc_array<T>(count)`
(allocator.hpp lines 218-243): `size = sizeof(T) * count` rounded to pointer
size, always zero-filled, every element default-constructed in place. -/
def Allocator.alloc_arrayCore (addr eltSize count : Nat) : ConsAlloc :=
  let size := eltSize * count
  let size := (size + ptrSize - 1) / ptrSize * ptrSize
  { reservedSize := size, zeroFilled := true, objAddr := addr }

/-- `Allocator::alloc<T>(args...)` including its `if (!initialized) init();`
prologue (allocator.hpp line 165): the state after the call and the
allocation performed. `create` abstracts MPS arena creation and `addr` the
address returned by `mps_alloc`. -/
def Allocator.allocStep (create : AllocatorConfig → MpsArena)
    (st : AllocatorState) (addr sizeofT : Nat) (trivialCtor : Bool) :
    AllocatorState × ConsAlloc :=
  let st1 := if st.initialized then st
             else Allocator.init create st AllocatorConfig.defaults
  (st1, Allocator.allocCore addr sizeofT trivialCtor)

/-- `Allocator::alloc_array<T>(count)` including its
`if (!initialized) init();` prologue (allocator.hpp line 220). -/
def Allocator.alloc_arrayStep (create : AllocatorConfig → MpsArena)
    (st : AllocatorState) (addr eltSize count : Nat) :
    AllocatorState × ConsAlloc :=
  let st1 := if st.initialized then st
             else Allocator.init create st AllocatorConfig.defaults
  (st1, Allocator.alloc_arrayCore addr eltSize count)

/-- `AllocatorAMC::alloc<T>(args...)` including its
`if (!initialized) init();` prologue (allocator-amc.hpp line 235). -/
def AllocatorAMC.allocStep (st : AMCState) (addr objectSize : Nat) :
    AMCState × AMCAlloc :=
  let st1 := if st.initialized then st else { initialized := true }
  (st1, AllocatorAMC.allocAt addr objectSize)

/-- The state of a `gs::gc::BumpAllocator`
(`src/compiler/runtime/cpp/gc/allocator-bump.hpp` lines 44-53): `arena_`
(start address), `current_` (cursor), `end_`, `arena_size_`. -/
structure BumpAllocator where
  arena : Nat
  current : Nat
  end_ : Nat
  arena_size : Nat
  deriving DecidableEq, Repr

/-- The `BumpAllocator(arena_size)` constructor (allocator-bump.hpp lines
58-65): `arena_` is the buffer obtained from
`Allocator::alloc_array<char>(arena_size)` (its start address is the
parameter `arena_start` here), `current_ = arena_`,
`end_ = arena_ + arena_size_`. -/
def BumpAllocator.create (arena_start arena_size : Nat) : BumpAllocator :=
  { arena := arena_start, current := arena_start
    end_ := arena_start + arena_size, arena_size := arena_size }

/-- Who served a bump-allocation request: an in-arena bump at a concrete
address, or the owning pool (`Allocator::alloc` / `Allocator::alloc_array`)
on arena exhaustion. -/
inductive BumpServed where
  | arena (addr : Nat)
  | pool
  deriving DecidableEq, Repr

/-- `BumpAllocator::alloc<T>(args...)` (allocator-bump.hpp lines 71-93):
align `current_` to `alignof(T)` with
`(current_ + alignment - 1) & ~(alignment - 1)`; if `aligned + size > end_`,
fall back to `Allocator::alloc<T>` leaving the bump state untouched;
otherwise set `current_ = aligned + size` and construct `T` at `aligned`.
`size = sizeof(T)`, `alignment = alignof(T)`. -/
def BumpAllocator.alloc (st : BumpAllocator) (size alignment : Nat) :
    BumpServed × BumpAllocator :=
  let aligned := (st.current + alignment - 1) / alignment * alignment
  if st.end_ < aligned + size then
    (BumpServed.pool, st)
  else
    (BumpServed.arena aligned, { st with current := aligned + size })

/-- `BumpAllocator::alloc_array<T>(count)` (allocator-bump.hpp lines 98-125):
`size = sizeof(T) * count`, then the same align/bound/bump logic as `alloc`,
falling back to `Allocator::alloc_array<T>` on exhaustion; the in-arena path
zero-fills and default-constructs each element. -/
def BumpAllocator.alloc_array (st : BumpAllocator) (eltSize count alignment : Nat) :
    BumpServed × BumpAllocator :=
  let size := eltSize * count
  let aligned := (st.current + alignment - 1) / alignment * alignment
  if st.end_ < aligned + size then
    (BumpServed.pool, st)
  else
    (BumpServed.arena aligned, { st with current := aligned + size })

/-- `BumpAllocator::reset()` (allocator-bump.hpp lines 132-136):
`current_ = arena_`; no destructors run. -/
def BumpAllocator.reset (st : BumpAllocator) : BumpAllocator :=
  { st with current := st.arena }

/-- `BumpAllocator::clear()` (allocator-bump.hpp lines 142-145): zero the
whole arena (a memory effect outside this state) and `current_ = arena_`. -/
def BumpAllocator.clear (st : BumpAllocator) : BumpAllocator :=
  { st with current := st.arena }

/-- `BumpAllocator::used()`: `current_ - arena_`. -/
def BumpAllocator.used (st : BumpAllocator) : Nat :=
  st.current - st.arena

/-- `BumpAllocator.available()`: `end_ - current_`. -/
def BumpAllocator.available (st : BumpAllocator) : Nat :=
  st.end_ - st.current

/-- `BumpAllocator::capacity()`: `arena_size_`. -/
def BumpAllocator.capacity (st : BumpAllocator) : Nat :=
  st.arena_size

/-- The cursor invariant of a bump allocator:
`arena_ ≤ current_ ≤ end_ = arena_ + arena_size_`. -/
def BumpAllocator.inv (st : BumpAllocator) : Prop :=
  st.arena ≤ st.current ∧ st.current ≤ st.end_ ∧
    st.end_ = st.arena + st.arena_size

instance (st : BumpAllocator) : Decidable st.inv := by
  unfold BumpAllocator.inv
  infer_instance

/-! ## Helper lemmas -/

/-- `BumpAllocator.alloc` unfolded through its `let`s. -/
theorem BumpAllocator.alloc_eq (st : BumpAllocator) (size alignment : Nat) :
    st.alloc size alignment =
      if st.end_ < alignUp st.current alignment + size then
        (BumpServed.pool, st)
      else
        (BumpServed.arena (alignUp st.current alignment),
         { st with current := alignUp st.current alignment + size }) := rfl

/-- `BumpAllocator.alloc_array` unfolded through its `let`s. -/
theorem BumpAllocator.alloc_array_eq (st : BumpAllocator)
    (eltSize count alignment : Nat) :
    st.alloc_array eltSize count alignment =
      if st.end_ < alignUp st.current alignment + eltSize * count then
        (BumpServed.pool, st)
      else
        (BumpServed.arena (alignUp st.current alignment),
         { st with current := alignUp st.current alignment + eltSize * count }) := rfl

/-- A second `Allocator::init` on an already-initialized state returns at
once. -/
theorem Allocator.init_of_initialized (create : AllocatorConfig → MpsArena)
    (st : AllocatorState) (cfg : AllocatorConfig)
    (h : st.initialized = true) : Allocator.init create st cfg = st := by
  unfold Allocator.init
  rw [h]
  rfl

/-- `Allocator::init` always leaves the allocator initialized. -/
theorem Allocator.init_initialized (create : AllocatorConfig → MpsArena)
    (st : AllocatorState) (cfg : AllocatorConfig) :
    (Allocator.init create st cfg).initialized = true := by
  unfold Allocator.init
  split <;> simp_all

/-! ## Claim theorems -/

/-- C1: every precise-strategy allocation path (`alloc<T>(args...)`,
`alloc<T>()` — both embedded as `allocAt` — and `alloc_array<T>(n)`) writes
an `ObjectHeader` at the allocation base whose `size` field is the total
pointer-aligned allocation size including the header,
`align(header_size + payload)`, and the header start is pointer-aligned
(given that `mps_reserve` honors the format alignment `sizeof(void*)`). -/
theorem C1_amc_header_size (addr objectSize eltSize count : Nat)
    (h : addr % ptrSize = 0) :
    (AllocatorAMC.allocAt addr objectSize).header.size
        = alignUp (ObjectHeader.header_size + objectSize) ptrSize ∧
      (AllocatorAMC.allocAt addr objectSize).header.size % ptrSize = 0 ∧
      ObjectHeader.header_size + objectSize
        ≤ (AllocatorAMC.allocAt addr objectSize).header.size ∧
      (AllocatorAMC.allocAt addr objectSize).base % ptrSize = 0 ∧
      (AllocatorAMC.alloc_arrayAt addr eltSize count).header.size
        = alignUp (ObjectHeader.header_size + eltSize * count) ptrSize ∧
      ObjectHeader.header_size + eltSize * count
        ≤ (AllocatorAMC.alloc_arrayAt addr eltSize count).header.size ∧
      (AllocatorAMC.alloc_arrayAt addr eltSize count).base % ptrSize = 0 := by
  refine ⟨rfl, ?_, ?_, h, rfl, ?_, h⟩
  · exact alignUp_mod _ _
  · exact le_alignUp _ (by decide)
  · exact le_alignUp _ (by decide)

/-- C1 witness: a concrete allocation (`addr = 16`, payload 20 bytes,
array of 3 elements of 12 bytes). -/
theorem C1_amc_header_size_witness :
    (AllocatorAMC.allocAt 16 20).header.size
        = alignUp (ObjectHeader.header_size + 20) ptrSize ∧
      (AllocatorAMC.allocAt 16 20).header.size % ptrSize = 0 ∧
      ObjectHeader.header_size + 20 ≤ (AllocatorAMC.allocAt 16 20).header.size ∧
      (AllocatorAMC.allocAt 16 20).base % ptrSize = 0 ∧
      (AllocatorAMC.alloc_arrayAt 16 12 3).header.size
        = alignUp (ObjectHeader.header_size + 12 * 3) ptrSize ∧
      ObjectHeader.header_size + 12 * 3
        ≤ (AllocatorAMC.alloc_arrayAt 16 12 3).header.size ∧
      (AllocatorAMC.alloc_arrayAt 16 12 3).base % ptrSize = 0 :=
  C1_amc_header_size 16 20 12 3 (by decide)

/-- C2: `format::isfwd` returns the tag with its low bit cleared (i.e.
`tag - 1` for an odd tag) exactly when the low bit is set, and `nullptr`
(`none`) when it is clear. -/
theorem C2_isfwd_spec (h : ObjectHeader) :
    format.isfwd h =
      if h.type_tag % 2 = 1 then some (h.type_tag - 1) else none := by
  unfold format.isfwd
  split
  · rename_i hb
    have : 2 * (h.type_tag / 2) = h.type_tag - 1 := by omega
    rw [this]
  · rfl

/-- C9: after `format::pad(a, s)` the heap is still walkable — `skip` at `a`
returns `a + s` — and the pad is never seen as forwarded (`isfwd` returns
`nullptr`). -/
theorem C9_pad_skip_isfwd (m : Heap) (a s : Nat)
    (hs : ObjectHeader.header_size ≤ s) :
    format.skip (format.pad m a s) a = a + s ∧
      format.isfwdAt (format.pad m a s) a = none := by
  constructor
  · unfold format.skip format.pad
    simp
  · unfold format.isfwdAt format.pad format.isfwd
    simp

/-- C9 witness: padding 24 bytes at address 8 on an all-zero heap. -/
theorem C9_pad_skip_isfwd_witness :
    format.skip (format.pad (fun _ => { size := 0, type_tag := 0 }) 8 24) 8
        = 8 + 24 ∧
      format.isfwdAt (format.pad (fun _ => { size := 0, type_tag := 0 }) 8 24) 8
        = none :=
  C9_pad_skip_isfwd _ 8 24 (by decide)

/-- C3: for `BumpAllocator::alloc<T>`, if the `alignof(T)`-aligned cursor
plus `sizeof(T)` exceeds the arena end the request is served by the owning
pool `alloc<T>` and the bump state is unchanged (`used()`/`available()`
agree with their values before the call); otherwise the cursor is advanced
past the object and the returned address lies in
`[arena_start, arena_start + capacity)`. (`0 < size` since `sizeof(T) ≥ 1`
and `0 < alignment` since `alignof(T) ≥ 1` in C++; `st.inv` holds for every
reachable state by C10.) -/
theorem C3_bump_alloc_spec (st : BumpAllocator) (size alignment : Nat)
    (hinv : st.inv) (hsz : 0 < size) (hal : 0 < alignment) :
    (st.end_ < alignUp st.current alignment + size →
      st.alloc size alignment = (BumpServed.pool, st) ∧
      (st.alloc size alignment).2.used = st.used ∧
      (st.alloc size alignment).2.available = st.available) ∧
    (alignUp st.current alignment + size ≤ st.end_ →
      (st.alloc size alignment).1
          = BumpServed.arena (alignUp st.current alignment) ∧
      (st.alloc size alignment).2.current
          = alignUp st.current alignment + size ∧
      st.arena ≤ alignUp st.current alignment ∧
      alignUp st.current alignment < st.arena + st.capacity) := by
  obtain ⟨h1, h2, h3⟩ := hinv
  have hA : st.current ≤ alignUp st.current alignment := le_alignUp _ hal
  rw [BumpAllocator.alloc_eq]
  constructor
  · intro hover
    rw [if_pos hover]
    exact ⟨rfl, rfl, rfl⟩
  · intro hfit
    rw [if_neg (by omega)]
    refine ⟨rfl, rfl, by omega, ?_⟩
    show alignUp st.current alignment < st.arena + st.arena_size
    omega

/-- C3 witness: a fresh 16-byte arena at address 0; allocating 8 bytes at
alignment 8 fits, and would overflow only past the end. -/
theorem C3_bump_alloc_spec_witness :
    ((BumpAllocator.create 0 16).end_
        < alignUp (BumpAllocator.create 0 16).current 8 + 8 →
      (BumpAllocator.create 0 16).alloc 8 8
          = (BumpServed.pool, BumpAllocator.create 0 16) ∧
      ((BumpAllocator.create 0 16).alloc 8 8).2.used
          = (BumpAllocator.create 0 16).used ∧
      ((BumpAllocator.create 0 16).alloc 8 8).2.available
          = (BumpAllocator.create 0 16).available) ∧
    (alignUp (BumpAllocator.create 0 16).current 8 + 8
        ≤ (BumpAllocator.create 0 16).end_ →
      ((BumpAllocator.create 0 16).alloc 8 8).1
          = BumpServed.arena (alignUp (BumpAllocator.create 0 16).current 8) ∧
      ((BumpAllocator.create 0 16).alloc 8 8).2.current
          = alignUp (BumpAllocator.create 0 16).current 8 + 8 ∧
      (BumpAllocator.create 0 16).arena
          ≤ alignUp (BumpAllocator.create 0 16).current 8 ∧
      alignUp (BumpAllocator.create 0 16).current 8
          < (BumpAllocator.create 0 16).arena
            + (BumpAllocator.create 0 16).capacity) :=
  C3_bump_alloc_spec (BumpAllocator.create 0 16) 8 8 (by decide) (by decide)
    (by decide)

/-- C4: for a bump allocator whose first post-construction `alloc<T>` fit in
the arena, `reset()` followed by the same `alloc<T>` returns the identical
address. `st` is any later state of the same allocator (same `arena_`,
`end_`, `arena_size_`; only `current_` ever changes). -/
theorem C4_reset_realloc (a n size alignment p : Nat)
    (st1 st : BumpAllocator)
    (hfirst : (BumpAllocator.create a n).alloc size alignment
        = (BumpServed.arena p, st1))
    (ha : st.arena = a) (hn : st.arena_size = n) (he : st.end_ = a + n) :
    (st.reset.alloc size alignment).1 = BumpServed.arena p := by
  have hres : st.reset = BumpAllocator.create a n := by
    unfold BumpAllocator.reset BumpAllocator.create
    cases st
    simp_all
  rw [hres, hfirst]

/-- C4 witness: a 16-byte arena at 0; the first 8-byte allocation lands at
address 0, and after reaching the state `⟨0, 8, 16, 16⟩` a reset re-yields
address 0. -/
theorem C4_reset_realloc_witness :
    ((BumpAllocator.mk 0 8 16 16).reset.alloc 8 8).1 = BumpServed.arena 0 :=
  C4_reset_realloc 0 16 8 8 0 (BumpAllocator.mk 0 8 16 16)
    (BumpAllocator.mk 0 8 16 16) (by decide) rfl rfl rfl

/-- C10: `used() + available() = capacity()` holds in every state satisfying
the cursor invariant `arena_ ≤ current_ ≤ end_ = arena_ + arena_size_`; the
invariant holds after construction and is preserved by `alloc`,
`alloc_array`, `reset` and `clear` (`0 < alignment` since `alignof(T) ≥ 1`
in C++). -/
theorem C10_bump_invariant :
    (∀ a n, (BumpAllocator.create a n).inv) ∧
    (∀ st : BumpAllocator, st.inv →
      st.used + st.available = st.capacity) ∧
    (∀ (st : BumpAllocator) (size alignment : Nat), 0 < alignment →
      st.inv → ((st.alloc size alignment).2).inv) ∧
    (∀ (st : BumpAllocator) (eltSize count alignment : Nat), 0 < alignment →
      st.inv → ((st.alloc_array eltSize count alignment).2).inv) ∧
    (∀ st : BumpAllocator, st.inv → st.reset.inv) ∧
    (∀ st : BumpAllocator, st.inv → st.clear.inv) := by
  refine ⟨?_, ?_, ?_, ?_, ?_, ?_⟩
  · intro a n
    exact ⟨Nat.le_refl _, Nat.le_add_right _ _, rfl⟩
  · intro st hinv
    obtain ⟨h1, h2, h3⟩ := hinv
    unfold BumpAllocator.used BumpAllocator.available BumpAllocator.capacity
    omega
  · intro st size alignment hal hinv
    obtain ⟨h1, h2, h3⟩ := hinv
    have hA : st.current ≤ alignUp st.current alignment := le_alignUp _ hal
    rw [BumpAllocator.alloc_eq]
    split
    · exact ⟨h1, h2, h3⟩
    · rename_i hfit
      refine ⟨?_, ?_, h3⟩
      · show st.arena ≤ alignUp st.current alignment + size
        omega
      · show alignUp st.current alignment + size ≤ st.end_
        omega
  · intro st eltSize count alignment hal hinv
    obtain ⟨h1, h2, h3⟩ := hinv
    have hA : st.current ≤ alignUp st.current alignment := le_alignUp _ hal
    rw [BumpAllocator.alloc_array_eq]
    split
    · exact ⟨h1, h2, h3⟩
    · rename_i hfit
      refine ⟨?_, ?_, h3⟩
      · show st.arena ≤ alignUp st.current alignment + eltSize * count
        omega
      · show alignUp st.current alignment + eltSize * count ≤ st.end_
        omega
  · intro st hinv
    obtain ⟨h1, h2, h3⟩ := hinv
    refine ⟨Nat.le_refl _, ?_, h3⟩
    show st.arena ≤ st.end_
    omega
  · intro st hinv
    obtain ⟨h1, h2, h3⟩ := hinv
    refine ⟨Nat.le_refl _, ?_, h3⟩
    show st.arena ≤ st.end_
    omega

/-- C10 witness: the invariant and the accounting equation at a concrete
32-byte arena, across one allocation, an array allocation, a reset and a
clear. -/
theorem C10_bump_invariant_witness :
    (BumpAllocator.create 4 32).inv ∧
    (BumpAllocator.create 4 32).used + (BumpAllocator.create 4 32).available
        = (BumpAllocator.create 4 32).capacity ∧
    (((BumpAllocator.create 4 32).alloc 8 8).2).inv ∧
    (((BumpAllocator.create 4 32).alloc_array 4 3 4).2).inv ∧
    ((BumpAllocator.create 4 32).reset).inv ∧
    ((BumpAllocator.create 4 32).clear).inv :=
  ⟨C10_bump_invariant.1 4 32,
   C10_bump_invariant.2.1 _ (by decide),
   C10_bump_invariant.2.2.1 _ 8 8 (by decide) (by decide),
   C10_bump_invariant.2.2.2.1 _ 4 3 4 (by decide) (by decide),
   C10_bump_invariant.2.2.2.2.1 _ (by decide),
   C10_bump_invariant.2.2.2.2.2 _ (by decide)⟩

/-- C5: `Allocator::init` is idempotent — for any configs `c1`, `c2`,
`init(c1); init(c2)` leaves the allocator in the same state as `init(c1)`
alone, and the stored config and `committed_memory()` are unchanged by the
second call. -/
theorem C5_init_idempotent (create : AllocatorConfig → MpsArena)
    (st : AllocatorState) (c1 c2 : AllocatorConfig) :
    Allocator.init create (Allocator.init create st c1) c2
        = Allocator.init create st c1 ∧
      Allocator.committed_memory
          (Allocator.init create (Allocator.init create st c1) c2)
        = Allocator.committed_memory (Allocator.init create st c1) ∧
      Allocator.get_config
          (Allocator.init create (Allocator.init create st c1) c2)
        = Allocator.get_config (Allocator.init create st c1) := by
  have h : Allocator.init create (Allocator.init create st c1) c2
      = Allocator.init create st c1 :=
    Allocator.init_of_initialized create _ c2
      (Allocator.init_initialized create st c1)
  exact ⟨h, congrArg _ h, congrArg _ h⟩

/-- C6 counterexample: with the initialized AMC allocator,
`AllocatorAMC::shutdown` (allocator-amc.hpp lines 217-226) destroys the Pool
before the Root, so the claimed order Root, Pool, Arena does not hold for
it. -/
theorem C6_shutdown_order_counterexample :
    ¬ (before TeardownEvent.root TeardownEvent.pool
         (AllocatorAMC.shutdownTrace { initialized := true }) ∧
       before TeardownEvent.pool TeardownEvent.arena
         (AllocatorAMC.shutdownTrace { initialized := true })) := by
  decide

/-- C6 (amended): `Allocator::shutdown`, called initialized, tears down
Root, Pool, Arena in that order, while `AllocatorAMC::shutdown` tears down
Pool, Root, Arena in that order; both are idempotent — called while not
initialized they are no-ops that destroy nothing and change no state. -/
theorem C6_shutdown_order (cst : AllocatorState) (ast : AMCState)
    (hc : cst.initialized = true) (ha : ast.initialized = true)
    (cst0 : AllocatorState) (ast0 : AMCState)
    (hc0 : cst0.initialized = false) (ha0 : ast0.initialized = false) :
    (before TeardownEvent.root TeardownEvent.pool
        (Allocator.shutdownTrace cst) ∧
     before TeardownEvent.pool TeardownEvent.arena
        (Allocator.shutdownTrace cst)) ∧
    (before TeardownEvent.pool TeardownEvent.root
        (AllocatorAMC.shutdownTrace ast) ∧
     before TeardownEvent.root TeardownEvent.arena
        (AllocatorAMC.shutdownTrace ast)) ∧
    (Allocator.shutdown cst0 = cst0 ∧ Allocator.shutdownTrace cst0 = []) ∧
    (AllocatorAMC.shutdown ast0 = ast0 ∧
     AllocatorAMC.shutdownTrace ast0 = []) := by
  have h1 : Allocator.shutdownTrace cst
      = [TeardownEvent.root, TeardownEvent.thread, TeardownEvent.pool,
         TeardownEvent.arena] := by
    simp [Allocator.shutdownTrace, hc]
  have h2 : AllocatorAMC.shutdownTrace ast
      = [TeardownEvent.pool, TeardownEvent.format, TeardownEvent.root,
         TeardownEvent.thread, TeardownEvent.arena] := by
    simp [AllocatorAMC.shutdownTrace, ha]
  rw [h1, h2]
  refine ⟨⟨by decide, by decide⟩, ⟨by decide, by decide⟩, ⟨?_, ?_⟩, ?_, ?_⟩
  · simp [Allocator.shutdown, hc0]
  · simp [Allocator.shutdownTrace, hc0]
  · simp [AllocatorAMC.shutdown, ha0]
  · simp [AllocatorAMC.shutdownTrace, ha0]

/-- C6 witness: concrete initialized and uninitialized states for both
allocators. -/
theorem C6_shutdown_order_witness :
    (before TeardownEvent.root TeardownEvent.pool
        (Allocator.shutdownTrace
          { AllocatorState.start with initialized := true }) ∧
     before TeardownEvent.pool TeardownEvent.arena
        (Allocator.shutdownTrace
          { AllocatorState.start with initialized := true })) ∧
    (before TeardownEvent.pool TeardownEvent.root
        (AllocatorAMC.shutdownTrace { initialized := true }) ∧
     before TeardownEvent.root TeardownEvent.arena
        (AllocatorAMC.shutdownTrace { initialized := true })) ∧
    (Allocator.shutdown AllocatorState.start = AllocatorState.start ∧
     Allocator.shutdownTrace AllocatorState.start = []) ∧
    (AllocatorAMC.shutdown { initialized := false }
        = { initialized := false } ∧
     AllocatorAMC.shutdownTrace { initialized := false } = []) :=
  C6_shutdown_order { AllocatorState.start with initialized := true }
    { initialized := true } rfl rfl AllocatorState.start
    { initialized := false } rfl rfl

/-- C7: every `alloc` path called while not initialized first runs `init`
with the default config (the conservative `alloc<T>(args...)` and
`alloc_array<T>(n)` with `AllocatorConfig::defaults()`, the AMC `alloc` with
its parameterless `init`) and then performs the allocation; the call
succeeds rather than failing for lack of init. -/
theorem C7_auto_init (create : AllocatorConfig → MpsArena)
    (st : AllocatorState) (ast : AMCState)
    (addr sizeofT eltSize count objectSize : Nat) (trivialCtor : Bool)
    (h : st.initialized = false) (h2 : ast.initialized = false) :
    Allocator.allocStep create st addr sizeofT trivialCtor
        = (Allocator.init create st AllocatorConfig.defaults,
           Allocator.allocCore addr sizeofT trivialCtor) ∧
      (Allocator.allocStep create st addr sizeofT trivialCtor).1.initialized
        = true ∧
      (Allocator.allocStep create st addr sizeofT trivialCtor).1.config
        = AllocatorConfig.defaults ∧
      Allocator.alloc_arrayStep create st addr eltSize count
        = (Allocator.init create st AllocatorConfig.defaults,
           Allocator.alloc_arrayCore addr eltSize count) ∧
      AllocatorAMC.allocStep ast addr objectSize
        = ({ initialized := true }, AllocatorAMC.allocAt addr objectSize) := by
  refine ⟨?_, ?_, ?_, ?_, ?_⟩
  · simp [Allocator.allocStep, h]
  · simp [Allocator.allocStep, h, Allocator.init_initialized]
  · simp [Allocator.allocStep, Allocator.init, h]
  · simp [Allocator.alloc_arrayStep, h]
  · simp [AllocatorAMC.allocStep, h2]

/-- C7 witness: an allocation of a 24-byte non-trivially-constructible
object, a 10-element 4-byte array, and a 24-byte AMC object, all from the
pristine start state. -/
theorem C7_auto_init_witness :
    Allocator.allocStep (fun _ => { committed := 0, reserved := 0 })
        AllocatorState.start 64 24 false
        = (Allocator.init (fun _ => { committed := 0, reserved := 0 })
            AllocatorState.start AllocatorConfig.defaults,
           Allocator.allocCore 64 24 false) ∧
      (Allocator.allocStep (fun _ => { committed := 0, reserved := 0 })
          AllocatorState.start 64 24 false).1.initialized = true ∧
      (Allocator.allocStep (fun _ => { committed := 0, reserved := 0 })
          AllocatorState.start 64 24 false).1.config
        = AllocatorConfig.defaults ∧
      Allocator.alloc_arrayStep (fun _ => { committed := 0, reserved := 0 })
          AllocatorState.start 64 4 10
        = (Allocator.init (fun _ => { committed := 0, reserved := 0 })
            AllocatorState.start AllocatorConfig.defaults,
           Allocator.alloc_arrayCore 64 4 10) ∧
      AllocatorAMC.allocStep { initialized := false } 64 24
        = ({ initialized := true }, AllocatorAMC.allocAt 64 24) :=
  C7_auto_init (fun _ => { committed := 0, reserved := 0 })
    AllocatorState.start { initialized := false } 64 24 4 10 24 false rfl rfl

/-- C8: the conservative-pool `alloc<T>(args...)` reserves
`align(sizeof(T))` bytes (8-byte alignment, `sizeof(T) ≥ 1` in C++),
zero-fills them exactly when `T` is not trivially constructible from the
arguments (what the spec calls a "provably total" constructor), and returns the typed
pointer to the reserved address where `T` was constructed in place. -/
theorem C8_conservative_alloc (addr sizeofT : Nat) (trivialCtor : Bool)
    (h : 1 ≤ sizeofT) :
    (Allocator.allocCore addr sizeofT trivialCtor).reservedSize
        = alignUp sizeofT ptrSize ∧
      ((Allocator.allocCore addr sizeofT trivialCtor).zeroFilled = true
        ↔ trivialCtor = false) ∧
      (Allocator.allocCore addr sizeofT trivialCtor).objAddr = addr := by
  refine ⟨?_, ?_, rfl⟩
  · show (max sizeofT ptrSize + 7) / 8 * 8
        = (sizeofT + ptrSize - 1) / ptrSize * ptrSize
    unfold ptrSize
    rcases Nat.le_total sizeofT 8 with hle | hle
    · rw [Nat.max_eq_right hle]
      omega
    · rw [Nat.max_eq_left hle]
      omega
  · show (!trivialCtor) = true ↔ trivialCtor = false
    cases trivialCtor <;> simp

/-- C8 witness: a 12-byte object with a non-trivial constructor reserves
`align(12) = 16` bytes zero-filled at the returned address. -/
theorem C8_conservative_alloc_witness :
    (Allocator.allocCore 32 12 false).reservedSize = alignUp 12 ptrSize ∧
      ((Allocator.allocCore 32 12 false).zeroFilled = true
        ↔ false = false) ∧
      (Allocator.allocCore 32 12 false).objAddr = 32 :=
  C8_conservative_alloc 32 12 false (by decide)

end gc
end gs
